import Mathlib

/-!
Verification of the DN Sentinel kernel (src/app3.py) against its
specification.  The computational core of the application is a pure
pipeline over two scalar samples: percent change, fixed-constant
normalization, a clamped quadratic score, a four-state classifier and a
single sentinel scalar in [0, 2].  We embed that pipeline over the
rationals and prove the spec claims about it.
-/

namespace App3

/-- Normalization constant for the HRV tab (src/app3.py line 13). -/
def K_HRV : ℚ := 80

/-- Normalization constant for the VO2 tab (src/app3.py line 14). -/
def K_VO2 : ℚ := 60

/-- Upper DN threshold (src/app3.py line 23). -/
def DN_GREEN : ℚ := 95 / 100

/-- Lower DN threshold (src/app3.py line 24). -/
def DN_RED : ℚ := 85 / 100

/-- Helper clamp (src/app3.py lines 29-30): max lo (min hi x). -/
def clamp (x lo hi : ℚ) : ℚ := max lo (min hi x)

/-- The four discrete states the classifier can return. -/
inductive State where
  | INFO
  | GREEN
  | YELLOW
  | RED
  deriving DecidableEq, Repr

/-- State classifier (src/app3.py lines 32-48): rise at least K is INFO,
smaller rise is GREEN, drops are classified by the DN thresholds, and no
change is GREEN. -/
def compute_state (pct_change dn_core K : ℚ) : State :=
  if pct_change ≥ K then State.INFO
  else if pct_change > 0 then State.GREEN
  else if pct_change < 0 then
    if dn_core < DN_RED then State.RED
    else if dn_core < DN_GREEN then State.YELLOW
    else State.GREEN
  else State.GREEN

/-- Percent change of two consecutive samples (src/app3.py lines 89-90):
zero when the previous sample is zero, otherwise 100 * delta / prev. -/
def pct_of (prev curr : ℚ) : ℚ :=
  if prev = 0 then 0 else 100 * (curr - prev) / prev

/-- Clamped core score (src/app3.py lines 92-96): the signed ratio
TT_signed = pct / k, its absolute value TT_abs, the raw score
1 - TT_abs ^ 2, clamped to [0, 1]. -/
def DN_core_of (pct k : ℚ) : ℚ := clamp (1 - |pct / k| ^ 2) 0 1

/-- Sentinel scalar (src/app3.py lines 104-110): 1 when the state is
INFO or there was no change, 1 + clamp of the signed ratio on a rise,
the core score on a drop. -/
def DN_sentinel_of (pct dn_core k : ℚ) (state : State) : ℚ :=
  if state = State.INFO ∨ pct = 0 then 1
  else if pct > 0 then 1 + clamp (pct / k) 0 1
  else dn_core

/-- Result record stored by the CALCULATE branch
(src/app3.py lines 112-122). -/
structure CalcResult where
  prev : ℚ
  curr : ℚ
  delta : ℚ
  pct : ℚ
  DN_core : ℚ
  DN_sentinel : ℚ
  state : State
  deriving DecidableEq, Repr

/-- The CALCULATE branch of render_tab_single_signal
(src/app3.py lines 87-122) as a pure function of the two samples and
the per-tab constant. -/
def render_tab_single_signal_calc (prev curr k_value : ℚ) : CalcResult :=
  let pct := pct_of prev curr
  let DN_core := DN_core_of pct k_value
  let state := compute_state pct DN_core k_value
  ⟨prev, curr, curr - prev, pct, DN_core,
    DN_sentinel_of pct DN_core k_value state, state⟩

/-- One user interaction with the session cache
(src/app3.py lines 83-124): on CALCULATE the stored result is
overwritten wholesale from the current inputs; otherwise the prior
cache entry is kept. -/
def calc_step (prior : Option CalcResult) (do_calc : Bool)
    (prev curr k_value : ℚ) : Option CalcResult :=
  if do_calc then some (render_tab_single_signal_calc prev curr k_value)
  else prior

/-- The clamp helper really lands in [lo, hi] whenever lo ≤ hi. -/
theorem clamp_mem (x lo hi : ℚ) (h : lo ≤ hi) :
    lo ≤ clamp x lo hi ∧ clamp x lo hi ≤ hi := by
  constructor
  · exact le_max_left lo (min hi x)
  · exact max_le h (min_le_left hi x)

/-- Any clamped core score lies in [0, 1]. -/
theorem DN_core_of_mem (pct k : ℚ) :
    0 ≤ DN_core_of pct k ∧ DN_core_of pct k ≤ 1 :=
  clamp_mem _ 0 1 (by norm_num)

/-- Sentinel values lie in [0, 2] whenever the core score does in [0, 1]. -/
theorem DN_sentinel_of_mem (pct dn_core k : ℚ) (s : State)
    (h0 : 0 ≤ dn_core) (h1 : dn_core ≤ 1) :
    0 ≤ DN_sentinel_of pct dn_core k s ∧ DN_sentinel_of pct dn_core k s ≤ 2 := by
  unfold DN_sentinel_of
  split_ifs with hA hB
  · norm_num
  · have h := clamp_mem (pct / k) 0 1 (by norm_num)
    exact ⟨by linarith [h.1], by linarith [h.2]⟩
  · exact ⟨h0, by linarith⟩

/-- C1: for a strict drop (pct < 0) and positive constant K the
classifier returns RED when the core score is below 0.85, YELLOW when it
is in [0.85, 0.95), and GREEN when it is at least 0.95; both threshold
comparisons are strict, so 0.85 exactly is YELLOW and 0.95 exactly is
GREEN. -/
theorem compute_state_drop (pct dn_core K : ℚ) (hK : 0 < K)
    (hpct : pct < 0) :
    (dn_core < 85 / 100 → compute_state pct dn_core K = State.RED) ∧
    (85 / 100 ≤ dn_core → dn_core < 95 / 100 →
      compute_state pct dn_core K = State.YELLOW) ∧
    (95 / 100 ≤ dn_core → compute_state pct dn_core K = State.GREEN) := by
  have h1 : ¬ pct ≥ K := by linarith
  have h2 : ¬ pct > 0 := by linarith
  refine ⟨fun h => ?_, fun hlo hhi => ?_, fun h => ?_⟩
  · simp [compute_state, DN_RED, h1, h2, hpct, h]
  · have hnot : ¬ dn_core < 85 / 100 := not_lt.mpr hlo
    simp [compute_state, DN_RED, DN_GREEN, h1, h2, hpct, hnot, hhi]
  · have hn1 : ¬ dn_core < 85 / 100 := by rw [not_lt]; linarith
    have hn2 : ¬ dn_core < 95 / 100 := not_lt.mpr h
    simp [compute_state, DN_RED, DN_GREEN, h1, h2, hpct, hn1, hn2]

/-- Witness for C1: the three boundary cases at pct = -1, K = 80
(core score 0.5 is RED, exactly 0.85 is YELLOW, exactly 0.95 is GREEN). -/
theorem compute_state_drop_witness :
    compute_state (-1) (1 / 2) 80 = State.RED ∧
    compute_state (-1) (85 / 100) 80 = State.YELLOW ∧
    compute_state (-1) (95 / 100) 80 = State.GREEN :=
  ⟨(compute_state_drop (-1) (1 / 2) 80 (by norm_num) (by norm_num)).1
      (by norm_num),
   (compute_state_drop (-1) (85 / 100) 80 (by norm_num) (by norm_num)).2.1
      (by norm_num) (by norm_num),
   (compute_state_drop (-1) (95 / 100) 80 (by norm_num) (by norm_num)).2.2
      (by norm_num)⟩

/-- C2: for a positive constant K the classifier returns INFO whenever
pct ≥ K (the comparison is non-strict), GREEN whenever 0 < pct < K, and
GREEN at pct = 0. -/
theorem compute_state_rise (pct dn_core K : ℚ) (hK : 0 < K) :
    (pct ≥ K → compute_state pct dn_core K = State.INFO) ∧
    (0 < pct → pct < K → compute_state pct dn_core K = State.GREEN) ∧
    compute_state 0 dn_core K = State.GREEN := by
  refine ⟨fun h => ?_, fun hp hlt => ?_, ?_⟩
  · simp [compute_state, h]
  · have hge : ¬ pct ≥ K := not_le.mpr hlt
    simp [compute_state, hge, hp]
  · have hge : ¬ (0 : ℚ) ≥ K := not_le.mpr hK
    simp [compute_state, hge]

/-- Witness for C2: with K = 80, pct = 80 is INFO, pct = 79 is GREEN,
pct = 0 is GREEN. -/
theorem compute_state_rise_witness :
    compute_state 80 (1 / 2) 80 = State.INFO ∧
    compute_state 79 (1 / 2) 80 = State.GREEN ∧
    compute_state 0 (1 / 2) 80 = State.GREEN :=
  ⟨(compute_state_rise 80 (1 / 2) 80 (by norm_num)).1 (by norm_num),
   (compute_state_rise 79 (1 / 2) 80 (by norm_num)).2.1 (by norm_num)
      (by norm_num),
   (compute_state_rise 0 (1 / 2) 80 (by norm_num)).2.2⟩

/-- C5: whenever the previous sample is zero, the percent change computed
by the pipeline is exactly 0; the division is guarded by the zero test so
the division-by-zero branch is unreachable and the function is total. -/
theorem pct_zero_prev (curr k_value : ℚ) :
    (render_tab_single_signal_calc 0 curr k_value).pct = 0 := by
  simp [render_tab_single_signal_calc, pct_of]

/-- C6: whenever the previous sample is nonzero, the percent change
computed by the pipeline equals 100 * (curr - prev) / prev. -/
theorem pct_formula (prev curr k_value : ℚ) (h : prev ≠ 0) :
    (render_tab_single_signal_calc prev curr k_value).pct
      = 100 * (curr - prev) / prev := by
  simp [render_tab_single_signal_calc, pct_of, h]

/-- Witness for C6 at prev = 80, curr = 78. -/
theorem pct_formula_witness :
    (render_tab_single_signal_calc 80 78 80).pct = 100 * (78 - 80) / 80 :=
  pct_formula 80 78 80 (by norm_num)

/-- C7: the bounded core score equals clamp (1 - (pct / K) ^ 2) 0 1; a
normalized ratio of 0 gives score exactly 1, and a ratio of 1 or -1 gives
score exactly 0. -/
theorem DN_core_of_spec (pct K : ℚ) :
    DN_core_of pct K = clamp (1 - (pct / K) ^ 2) 0 1 ∧
    (pct / K = 0 → DN_core_of pct K = 1) ∧
    (pct / K = 1 ∨ pct / K = -1 → DN_core_of pct K = 0) := by
  refine ⟨by rw [DN_core_of, sq_abs], fun h => ?_, fun h => ?_⟩
  · simp [DN_core_of, h, clamp]
  · rcases h with h | h <;> simp [DN_core_of, h, clamp]

/-- Witness for C7 at pct = 80, K = 80 (ratio exactly 1). -/
theorem DN_core_of_spec_witness : DN_core_of 80 80 = 0 :=
  (DN_core_of_spec 80 80).2.2 (Or.inl (by norm_num))

/-- C8: the pipeline is deterministic and history-free: a CALCULATE step
overwrites the session cache with a value depending only on prev, curr
and the constant, identically for any two prior cache contents. -/
theorem calc_step_deterministic (prev curr k_value : ℚ)
    (prior1 prior2 : Option CalcResult) :
    calc_step prior1 true prev curr k_value
      = calc_step prior2 true prev curr k_value ∧
    calc_step prior1 true prev curr k_value
      = some (render_tab_single_signal_calc prev curr k_value) := by
  simp [calc_step]

/-- C3: for any pair of samples and positive constant the sentinel value
produced by the pipeline lies in [0, 2], and equals exactly 1 when the
state is INFO or the percent change is 0. -/
theorem calc_sentinel_range (prev curr k_value : ℚ) (hK : 0 < k_value) :
    (0 ≤ (render_tab_single_signal_calc prev curr k_value).DN_sentinel ∧
      (render_tab_single_signal_calc prev curr k_value).DN_sentinel ≤ 2) ∧
    ((render_tab_single_signal_calc prev curr k_value).state = State.INFO ∨
      (render_tab_single_signal_calc prev curr k_value).pct = 0 →
      (render_tab_single_signal_calc prev curr k_value).DN_sentinel = 1) := by
  have hsent : (render_tab_single_signal_calc prev curr k_value).DN_sentinel
      = DN_sentinel_of (pct_of prev curr)
          (DN_core_of (pct_of prev curr) k_value) k_value
          (compute_state (pct_of prev curr)
            (DN_core_of (pct_of prev curr) k_value) k_value) := rfl
  have hstate : (render_tab_single_signal_calc prev curr k_value).state
      = compute_state (pct_of prev curr)
          (DN_core_of (pct_of prev curr) k_value) k_value := rfl
  have hpct : (render_tab_single_signal_calc prev curr k_value).pct
      = pct_of prev curr := rfl
  have hmem := DN_core_of_mem (pct_of prev curr) k_value
  constructor
  · rw [hsent]
    exact DN_sentinel_of_mem _ _ _ _ hmem.1 hmem.2
  · intro h
    rw [hstate, hpct] at h
    rw [hsent]
    unfold DN_sentinel_of
    exact if_pos h

/-- Witness for C3 at prev = 100, curr = 100, K = 80 (no change, so the
sentinel is the neutral 1). -/
theorem calc_sentinel_range_witness :
    (render_tab_single_signal_calc 100 100 80).DN_sentinel = 1 :=
  (calc_sentinel_range 100 100 80 (by norm_num)).2
    (Or.inr (by norm_num [render_tab_single_signal_calc, pct_of]))

/-- C4: the sentinel is exactly the three-zone mapping: 1 when the state
is INFO or pct = 0; 1 + clamp (pct / K) 0 1 on a rise that is not INFO,
hence in [1, 2]; and the clamped core score on a drop, hence in [0, 1]. -/
theorem calc_sentinel_three_zone (prev curr k_value : ℚ) (r : CalcResult)
    (hr : r = render_tab_single_signal_calc prev curr k_value) :
    ((r.state = State.INFO ∨ r.pct = 0) → r.DN_sentinel = 1) ∧
    (r.state ≠ State.INFO → 0 < r.pct →
      r.DN_sentinel = 1 + clamp (r.pct / k_value) 0 1 ∧
      1 ≤ r.DN_sentinel ∧ r.DN_sentinel ≤ 2) ∧
    (r.state ≠ State.INFO → r.pct < 0 →
      r.DN_sentinel = r.DN_core ∧
      0 ≤ r.DN_sentinel ∧ r.DN_sentinel ≤ 1) := by
  subst hr
  have hsent : (render_tab_single_signal_calc prev curr k_value).DN_sentinel
      = DN_sentinel_of (pct_of prev curr)
          (DN_core_of (pct_of prev curr) k_value) k_value
          (compute_state (pct_of prev curr)
            (DN_core_of (pct_of prev curr) k_value) k_value) := rfl
  have hstate : (render_tab_single_signal_calc prev curr k_value).state
      = compute_state (pct_of prev curr)
          (DN_core_of (pct_of prev curr) k_value) k_value := rfl
  have hpct : (render_tab_single_signal_calc prev curr k_value).pct
      = pct_of prev curr := rfl
  have hcore : (render_tab_single_signal_calc prev curr k_value).DN_core
      = DN_core_of (pct_of prev curr) k_value := rfl
  have hmem := DN_core_of_mem (pct_of prev curr) k_value
  refine ⟨fun h => ?_, fun hni hpos => ?_, fun hni hneg => ?_⟩
  · rw [hstate, hpct] at h
    rw [hsent]
    unfold DN_sentinel_of
    exact if_pos h
  · rw [hstate] at hni
    rw [hpct] at hpos
    have hcond : ¬ (compute_state (pct_of prev curr)
        (DN_core_of (pct_of prev curr) k_value) k_value = State.INFO ∨
        pct_of prev curr = 0) := by
      rintro (h | h)
      · exact hni h
      · rw [h] at hpos; exact lt_irrefl 0 hpos
    have hcl := clamp_mem (pct_of prev curr / k_value) 0 1 (by norm_num)
    rw [hsent, hpct]
    unfold DN_sentinel_of
    rw [if_neg hcond, if_pos hpos]
    exact ⟨rfl, by linarith [hcl.1], by linarith [hcl.2]⟩
  · rw [hstate] at hni
    rw [hpct] at hneg
    have hcond : ¬ (compute_state (pct_of prev curr)
        (DN_core_of (pct_of prev curr) k_value) k_value = State.INFO ∨
        pct_of prev curr = 0) := by
      rintro (h | h)
      · exact hni h
      · rw [h] at hneg; exact lt_irrefl 0 hneg
    have hnpos : ¬ pct_of prev curr > 0 := by linarith
    rw [hsent, hcore]
    unfold DN_sentinel_of
    rw [if_neg hcond, if_neg hnpos]
    exact ⟨rfl, hmem.1, hmem.2⟩

/-- Witness for C4 at prev = 100, curr = 50, K = 80: a drop of 50
percent, state RED, sentinel equal to the core score. -/
theorem calc_sentinel_three_zone_witness :
    (render_tab_single_signal_calc 100 50 80).DN_sentinel
      = (render_tab_single_signal_calc 100 50 80).DN_core :=
  ((calc_sentinel_three_zone 100 50 80 _ rfl).2.2
    (by norm_num [render_tab_single_signal_calc, compute_state, pct_of,
      DN_core_of, clamp, DN_RED, DN_GREEN]; decide)
    (by norm_num [render_tab_single_signal_calc, pct_of])).1

/-- C9: a drop whose percent change reaches -K forces the clamped core
score to exactly 0, the state to RED and the sentinel to exactly 0,
while a rise whose percent change reaches K is neutralized as INFO with
sentinel exactly 1. -/
theorem calc_big_drop (prev curr k_value : ℚ) (hK : 0 < k_value)
    (hprev : prev ≠ 0) (hdrop : pct_of prev curr ≤ -k_value) :
    (render_tab_single_signal_calc prev curr k_value).DN_core = 0 ∧
    (render_tab_single_signal_calc prev curr k_value).state = State.RED ∧
    (render_tab_single_signal_calc prev curr k_value).DN_sentinel = 0 ∧
    ∀ prev2 curr2, k_value ≤ pct_of prev2 curr2 →
      (render_tab_single_signal_calc prev2 curr2 k_value).state
        = State.INFO ∧
      (render_tab_single_signal_calc prev2 curr2 k_value).DN_sentinel
        = 1 := by
  have hpneg : pct_of prev curr < 0 := lt_of_le_of_lt hdrop (by linarith)
  have hT : pct_of prev curr / k_value ≤ -1 := by
    rw [div_le_iff₀ hK]; linarith
  have hx : 1 - |pct_of prev curr / k_value| ^ 2 ≤ 0 := by
    rw [sq_abs]; nlinarith
  have hcore0 : DN_core_of (pct_of prev curr) k_value = 0 := by
    unfold DN_core_of clamp
    rw [min_eq_right (by linarith), max_eq_left hx]
  have hstate : (render_tab_single_signal_calc prev curr k_value).state
      = compute_state (pct_of prev curr)
          (DN_core_of (pct_of prev curr) k_value) k_value := rfl
  have hsent : (render_tab_single_signal_calc prev curr k_value).DN_sentinel
      = DN_sentinel_of (pct_of prev curr)
          (DN_core_of (pct_of prev curr) k_value) k_value
          (compute_state (pct_of prev curr)
            (DN_core_of (pct_of prev curr) k_value) k_value) := rfl
  have hcore : (render_tab_single_signal_calc prev curr k_value).DN_core
      = DN_core_of (pct_of prev curr) k_value := rfl
  have hge : ¬ pct_of prev curr ≥ k_value := by linarith
  have hgt : ¬ pct_of prev curr > 0 := by linarith
  have hred : compute_state (pct_of prev curr)
      (DN_core_of (pct_of prev curr) k_value) k_value = State.RED := by
    simp [compute_state, DN_RED, hge, hgt, hpneg, hcore0]
  refine ⟨by rw [hcore, hcore0], by rw [hstate, hred], ?_, ?_⟩
  · rw [hsent]
    unfold DN_sentinel_of
    have hcond : ¬ (compute_state (pct_of prev curr)
        (DN_core_of (pct_of prev curr) k_value) k_value = State.INFO ∨
        pct_of prev curr = 0) := by
      rintro (h | h)
      · rw [hred] at h; exact State.noConfusion h
      · rw [h] at hpneg; exact lt_irrefl 0 hpneg
    rw [if_neg hcond, if_neg hgt, hcore0]
  · intro prev2 curr2 hrise
    have hinfo : compute_state (pct_of prev2 curr2)
        (DN_core_of (pct_of prev2 curr2) k_value) k_value
          = State.INFO := by
      simp [compute_state, hrise]
    have hstate2 : (render_tab_single_signal_calc prev2 curr2 k_value).state
        = compute_state (pct_of prev2 curr2)
            (DN_core_of (pct_of prev2 curr2) k_value) k_value := rfl
    have hsent2 :
        (render_tab_single_signal_calc prev2 curr2 k_value).DN_sentinel
          = DN_sentinel_of (pct_of prev2 curr2)
              (DN_core_of (pct_of prev2 curr2) k_value) k_value
              (compute_state (pct_of prev2 curr2)
                (DN_core_of (pct_of prev2 curr2) k_value) k_value) := rfl
    refine ⟨by rw [hstate2, hinfo], ?_⟩
    rw [hsent2]
    unfold DN_sentinel_of
    exact if_pos (Or.inl hinfo)

/-- Witness for C9 at prev = 100, curr = 0, K = 80: the percent change
is -100 ≤ -80, and the rise side is instantiated at prev = 100,
curr = 200 where the percent change is 100 ≥ 80. -/
theorem calc_big_drop_witness :
    (render_tab_single_signal_calc 100 0 80).state = State.RED ∧
    (render_tab_single_signal_calc 100 0 80).DN_sentinel = 0 ∧
    (render_tab_single_signal_calc 100 200 80).state = State.INFO := by
  have h := calc_big_drop 100 0 80 (by norm_num) (by norm_num)
    (by norm_num [pct_of])
  exact ⟨h.2.1, h.2.2.1,
    (h.2.2.2 100 200 (by norm_num [pct_of])).1⟩

/-- C10: the clamped core score is an even function of the percent
change: it squares the absolute value of pct / K, so direction never
affects it. -/
theorem DN_core_of_even (pct K : ℚ) (hK : 0 < K) :
    DN_core_of pct K = DN_core_of (-pct) K := by
  simp [DN_core_of, neg_div]

/-- Witness for C10 at pct = 40, K = 80. -/
theorem DN_core_of_even_witness : DN_core_of 40 80 = DN_core_of (-40) 80 :=
  DN_core_of_even 40 80 (by norm_num)

end App3
